import Mathlib

/-!
Shallow embedding of the `img` repository (a Rust client for an IMGAPI-style
image-catalog service) and proofs about its behaviour.

Source files embedded:
* `imgapi/src/lib.rs` — the `ImageFilter` query encoder, the enumerations
  (`ImageState`, `OperatingSystem`, `Compression`) and the `File` record with
  its serde attributes;
* `imgapi/src/blocking.rs` — the `get` catalog operation (UUID validation,
  URL construction via `Url::join`, single GET);
* `src/bin/img.rs` — the CLI entry point `main`/`process`.

External crates the code leans on (`url::form_urlencoded`, `uuid`, `url`,
`serde`/`serde_json`) are modelled by their documented, deterministic
behaviour on the inputs the repository feeds them.
-/

namespace Img

/-! ### `form_urlencoded` percent-encoding

`url::form_urlencoded::Serializer::append_pair` percent-encodes each key and
value byte-wise: ASCII alphanumerics and `*`, `-`, `.`, `_` pass through,
the space becomes `+`, and every other byte of the UTF-8 encoding becomes
`%XX` with uppercase hex digits.  Pairs are rendered `key=value` and joined
with `&`; `finish` on an empty serializer yields the empty string. -/

/-- UTF-8 byte sequence of a character (each byte as a `Nat < 256`). -/
def utf8Bytes (c : Char) : List Nat :=
  let n := c.toNat
  if n < 0x80 then [n]
  else if n < 0x800 then
    [0xC0 + n / 0x40, 0x80 + n % 0x40]
  else if n < 0x10000 then
    [0xE0 + n / 0x1000, 0x80 + n / 0x40 % 0x40, 0x80 + n % 0x40]
  else
    [0xF0 + n / 0x40000, 0x80 + n / 0x1000 % 0x40, 0x80 + n / 0x40 % 0x40,
      0x80 + n % 0x40]

/-- Uppercase hexadecimal digit for a value `< 16`. -/
def hexDigit (n : Nat) : Char :=
  if n < 10 then Char.ofNat (48 + n) else Char.ofNat (55 + n)

/-- Percent escape of one byte, uppercase hex. -/
def percentByte (b : Nat) : String :=
  String.mk ['%', hexDigit (b / 16), hexDigit (b % 16)]

/-- The bytes `form_urlencoded` passes through unescaped:
ASCII alphanumerics and `*`, `-`, `.`, `_`. -/
def isFormSafe (c : Char) : Bool :=
  ('A' ≤ c && c ≤ 'Z') || ('a' ≤ c && c ≤ 'z') || ('0' ≤ c && c ≤ '9') ||
    c = '*' || c = '-' || c = '.' || c = '_'

/-- Encoding of a single character under `form_urlencoded`. -/
def encodeChar (c : Char) : String :=
  if c = ' ' then "+"
  else if isFormSafe c then String.singleton c
  else String.join ((utf8Bytes c).map percentByte)

/-- Full `form_urlencoded` encoding of a string. -/
def formEncode (s : String) : String :=
  String.join (s.data.map encodeChar)

/-- Render an (un-encoded) pair list the way
`form_urlencoded::Serializer::finish` does: encode key and value, join with
`=`, separate pairs with `&`. -/
def qsRender (ps : List (String × String)) : String :=
  String.intercalate "&" (ps.map fun p => formEncode p.1 ++ "=" ++ formEncode p.2)

/-! ### Enumerations from `imgapi/src/lib.rs` -/

/-- Rust `enum ImageState` — the state of an image. -/
inductive ImageState where
  | Active
  | Unactivated
  | Disabled
  | Creating
  | Failed
  deriving DecidableEq, Repr

/-- Display form of `ImageState` — the lowercase textual form. -/
def ImageState.display : ImageState → String
  | .Active => "active"
  | .Unactivated => "unactivated"
  | .Disabled => "disabled"
  | .Creating => "creating"
  | .Failed => "failed"

/-- Rust `enum OperatingSystem`. -/
inductive OperatingSystem where
  | SmartOS
  | Windows
  | Linux
  | BSD
  | Illumos
  | Other
  deriving DecidableEq, Repr

/-- Wire form `OperatingSystem::as_param` — the short lowercase name used by
the query encoder. -/
def OperatingSystem.as_param : OperatingSystem → String
  | .SmartOS => "smartos"
  | .Windows => "windows"
  | .Linux => "linux"
  | .BSD => "bsd"
  | .Illumos => "illumos"
  | .Other => "other"

/-- Display form of `OperatingSystem` — the human-readable name. -/
def OperatingSystem.display : OperatingSystem → String
  | .SmartOS => "SmartOS"
  | .Windows => "Windows"
  | .Linux => "Linux"
  | .BSD => "BSD"
  | .Illumos => "illumos"
  | .Other => "Other"

/-- Rust's `char::to_lowercase` restricted to the ASCII arguments the CLI
feeds it (the strings compared against are all ASCII). -/
def rustLower (s : String) : String :=
  String.mk (s.data.map Char.toLower)

/-- Parsing of `OperatingSystem` (its `FromStr`): lowercase the input, then
match the six wire names. -/
def OperatingSystem.from_str (s : String) : Option OperatingSystem :=
  let l := rustLower s
  if l = "smartos" then some .SmartOS
  else if l = "windows" then some .Windows
  else if l = "linux" then some .Linux
  else if l = "bsd" then some .BSD
  else if l = "illumos" then some .Illumos
  else if l = "other" then some .Other
  else none

/-- Rust's `bool::to_string` (via `Display`). -/
def rustBoolString (b : Bool) : String :=
  if b then "true" else "false"

/-! ### `ImageFilter` and its query-string encoder

`Uuid` fields are modelled by their canonical textual form (a string); the
`to_string` called on them by the encoder is the identity on that form.
The `tag` `HashMap` is modelled as its entry list in iteration order (the
map guarantees distinct keys but no particular order); `billing_tag` is a
`Vec`, whose order the list preserves exactly. -/

/-- Rust `struct ImageFilter` — every field optional, defaulting to absent. -/
structure ImageFilter where
  account : Option String := none
  channel : Option String := none
  include_admin_fields : Option Bool := none
  owner : Option String := none
  state : Option ImageState := none
  name : Option String := none
  version : Option String := none
  public : Option Bool := none
  os : Option OperatingSystem := none
  image_type : Option String := none
  tag : Option (List (String × String)) := none
  billing_tag : Option (List String) := none
  limit : Option Nat := none
  deriving Repr, DecidableEq

/-- One optional scalar parameter: a single pair when present, nothing
otherwise (the `if let Some(v) = &self.$param` body of `add_param!`). -/
def optPair (key : String) (v : Option String) : List (String × String) :=
  match v with
  | some s => [(key, s)]
  | none => []

/-- The pair for one `tag` map entry: key `tag.` ++ the entry's key, value
taken verbatim. -/
def tagPair (kv : String × String) : String × String :=
  ("tag." ++ kv.1, kv.2)

/-- The (un-encoded) pairs `ImageFilter::to_string` appends, in source
order.  Note the keys: the `add_param!` macro's two-argument expansion
re-derives the key with `stringify!($param)` and *discards* the explicit
query-name argument, so `include_admin_fields` is emitted under the key
`include_admin_fields` (not `inclAdminFields`) and `image_type` under
`image_type`; only the four-argument arm (used for `os`) honours the
explicit key. -/
def ImageFilter.pairs (f : ImageFilter) : List (String × String) :=
  optPair "account" f.account ++
  optPair "channel" f.channel ++
  optPair "include_admin_fields" (f.include_admin_fields.map rustBoolString) ++
  optPair "owner" f.owner ++
  optPair "state" (f.state.map ImageState.display) ++
  optPair "name" f.name ++
  optPair "version" f.version ++
  optPair "public" (f.public.map rustBoolString) ++
  optPair "os" (f.os.map OperatingSystem.as_param) ++
  optPair "image_type" f.image_type ++
  optPair "limit" (f.limit.map toString) ++
  (f.tag.getD []).map tagPair ++
  (f.billing_tag.getD []).map (fun v => ("billing_tag", v))

/-- Encoder `ImageFilter::to_string` — the percent-encoded query string. -/
def ImageFilter.to_string (f : ImageFilter) : String :=
  qsRender f.pairs

/-! ### `uuid::Uuid::parse_str`

`Uuid::parse_str` accepts the four textual UUID formats: simple (32 hex
digits), hyphenated (8-4-4-4-12), the hyphenated form wrapped in braces, and
the hyphenated form behind a `urn:uuid:` prefix.  Anything else is a parse
error. -/

/-- Hexadecimal digit, either case. -/
def isHexDigit (c : Char) : Bool :=
  ('0' ≤ c && c ≤ '9') || ('a' ≤ c && c ≤ 'f') || ('A' ≤ c && c ≤ 'F')

/-- Split a character list at every `-` (empty groups kept). -/
def splitDash (cs : List Char) : List (List Char) :=
  cs.foldr
    (fun c acc =>
      if c = '-' then [] :: acc
      else
        match acc with
        | g :: gs => (c :: g) :: gs
        | [] => [[c]])
    [[]]

/-- The simple UUID format: exactly 32 hex digits. -/
def isSimpleUuid (cs : List Char) : Bool :=
  cs.length = 32 && cs.all isHexDigit

/-- The hyphenated UUID format: five hex groups of lengths 8-4-4-4-12. -/
def isHyphenatedUuid (cs : List Char) : Bool :=
  match splitDash cs with
  | [a, b, c, d, e] =>
    a.length = 8 && b.length = 4 && c.length = 4 && d.length = 4 &&
      e.length = 12 && (a ++ b ++ c ++ d ++ e).all isHexDigit
  | _ => false

/-- Whether `uuid::Uuid::parse_str` succeeds on `s` (simple, hyphenated,
braced-hyphenated, or `urn:uuid:`-prefixed hyphenated). -/
def isValidUuid (s : String) : Bool :=
  let cs := s.data
  isSimpleUuid cs || isHyphenatedUuid cs ||
    (List.isPrefixOf "urn:uuid:".data cs && isHyphenatedUuid (cs.drop 9)) ||
    (cs.head? = some (Char.ofNat 123) && cs.getLast? = some (Char.ofNat 125) &&
      isHyphenatedUuid (cs.drop 1).dropLast)

/-! ### `Url::join` and the `get` operation (`imgapi/src/blocking.rs`)

`JOYENT_IMGAPI_URL` is `https://images.joyent.com/images`.  `blocking::get`
first runs `Uuid::parse_str` on its argument (propagating the parse error),
then computes `Url::parse(JOYENT_IMGAPI_URL)?.join(image_uuid)?` and issues
one GET to the result.  `Url::join` performs RFC 3986 relative-reference
resolution; for a reference that contains no `/`, `:`, `?` or `#` (a UUID
string does not) the reference is merged onto the base path with the base's
*last segment removed* (RFC 3986 §5.3 merge). -/

/-- A parsed absolute URL: the scheme-plus-authority prefix and the path
segments. -/
structure ParsedUrl where
  origin : String
  segments : List String
  deriving Repr

/-- Serialization of a parsed URL back to a string. -/
def ParsedUrl.render (u : ParsedUrl) : String :=
  u.origin ++ String.join (u.segments.map fun s => "/" ++ s)

/-- Parsed form of `JOYENT_IMGAPI_URL` — the path is the single segment
`images`. -/
def joyentBase : ParsedUrl :=
  { origin := "https://images.joyent.com", segments := ["images"] }

/-- The constant `JOYENT_IMGAPI_URL`. -/
def JOYENT_IMGAPI_URL : String := "https://images.joyent.com/images"

/-- Model of `Url::join` for a relative reference without `/`, `:`, `?`, `#`: RFC
3986 path merge drops the base's last segment and appends the
reference. -/
def urlJoin (base : ParsedUrl) (rel : String) : ParsedUrl :=
  { base with segments := base.segments.dropLast ++ [rel] }

/-- The URL string `get` fetches for a given (already validated) id. -/
def getUrl (image_uuid : String) : String :=
  (urlJoin joyentBase image_uuid).render

/-- Errors surfaced by `get` (the `Box<dyn Error>` taxonomy relevant
here). -/
inductive GetError where
  | invalidUuid
  | transport (msg : String)
  deriving DecidableEq, Repr

/-- Model of `blocking::get`, instrumented with the list of URLs it requests.
`fetch` abstracts `reqwest::blocking::get(url)?.json::<Image>()?`: the one
network-plus-decode step, returning the decoded image (of abstract type
`A`) or an error.  The uuid validation happens before any request; the
result pairs the returned value with every URL a GET was issued to. -/
def get {A : Type} (fetch : String → Except String A) (image_uuid : String) :
    Except GetError A × List String :=
  if isValidUuid image_uuid then
    match fetch (getUrl image_uuid) with
    | .error m => (.error (.transport m), [getUrl image_uuid])
    | .ok img => (.ok img, [getUrl image_uuid])
  else
    (.error .invalidUuid, [])

/-! ### The CLI (`src/bin/img.rs`)

`process` walks `env::args()`; an argument with no `=` is skipped, an
argument `k=v` (split at the *first* `=`) is matched against the recognized
keys.  `tag` and `marker` hit `todo!()` — an unconditional panic.  Only
after every argument succeeds does `process` call
`imgapi::blocking::list(Some(&filter))`, which is the only network
request. -/

/-- Rust's `str::split_once('=')` on the character list: the text before
the first `=` and the text after it, or `none` when there is no `=`. -/
def splitEq : List Char → Option (List Char × List Char)
  | [] => none
  | c :: cs =>
    if c = '=' then some ([], cs)
    else (splitEq cs).map fun p => (c :: p.1, p.2)

/-- Rust `str::split_once("=")` on strings. -/
def splitOnceEq (s : String) : Option (String × String) :=
  (splitEq s.data).map fun p => (String.mk p.1, String.mk p.2)

/-- Rust's `bool::from_str`: exactly `true` or `false`. -/
def boolFromStr (s : String) : Option Bool :=
  if s = "true" then some true
  else if s = "false" then some false
  else none

/-- Rust's `u32::from_str`: an optional `+` sign, then at least one decimal
digit, value below `2^32`. -/
def u32FromStr (s : String) : Option Nat :=
  let ds := match s.data with
    | '+' :: rest => rest
    | l => l
  if ds ≠ [] && ds.all (fun c => '0' ≤ c && c ≤ '9') then
    let n := ds.foldl (fun acc c => acc * 10 + (c.toNat - 48)) 0
    if n < 2 ^ 32 then some n else none
  else none

/-- Outcome of handling one `k=v` argument in `process`'s match. -/
inductive ArgStep where
  | ok (f : ImageFilter)
  | err (msg : String)
  | panics
  deriving Repr

/-- The body of `process`'s `for` loop for a single argument: skip
arguments without `=`, otherwise dispatch on the key.  `"tag"` and
`"marker"` are `todo!()` — an unconditional panic. -/
def processArg (f : ImageFilter) (arg : String) : ArgStep :=
  match splitOnceEq arg with
  | none => .ok f
  | some (k, v) =>
    if k = "account" then
      if isValidUuid v then .ok { f with account := some v }
      else .err "account must be a valid UUID"
    else if k = "channel" then .ok { f with channel := some v }
    else if k = "inclAdminFields" then
      match boolFromStr v with
      | some b => .ok { f with include_admin_fields := some b }
      | none => .err "inclAdminFields must be either true or false"
    else if k = "owner" then
      if isValidUuid v then .ok { f with owner := some v }
      else .err "owner must be a valid UUID"
    else if k = "name" then .ok { f with name := some v }
    else if k = "version" then .ok { f with version := some v }
    else if k = "public" then
      match boolFromStr v with
      | some b => .ok { f with public := some b }
      | none => .err "public must be either true or false"
    else if k = "os" then
      match OperatingSystem.from_str v with
      | some o => .ok { f with os := some o }
      | none =>
        .err "os must be one of: smartos, linux, windows, bsd, illumos, other"
    else if k = "type" then .ok { f with image_type := some v }
    else if k = "tag" then .panics
    else if k = "billing_tag" then
      match f.billing_tag with
      | some tags => .ok { f with billing_tag := some (tags ++ [v]) }
      | none => .ok { f with billing_tag := some [v] }
    else if k = "limit" then
      match u32FromStr v with
      | some n => .ok { f with limit := some n }
      | none => .err "limit must be an integer"
    else if k = "marker" then .panics
    else .err ("unexpected query filter: " ++ arg)

/-- How a run of `process` ends: a panic (from `todo!()`), an early error
return, or reaching the final `list(Some(&filter))` call with the
accumulated filter. -/
inductive ProcResult where
  | panicked
  | errored (msg : String)
  | listed (f : ImageFilter)
  deriving Repr

/-- The argument loop of `process`, starting from a given filter. -/
def processLoop (f : ImageFilter) : List String → ProcResult
  | [] => .listed f
  | a :: rest =>
    match processArg f a with
    | .ok f2 => processLoop f2 rest
    | .err m => .errored m
    | .panics => .panicked

/-- Entry `process`, from the default (empty) filter over the argument list
(`env::args()`, program name included — it contains no `=`, so it is
skipped). -/
def process (args : List String) : ProcResult :=
  processLoop {} args

/-- The URLs `process` requests: `list` builds
`JOYENT_IMGAPI_URL ? filter.to_string()` and issues the single GET, and is
reached only when every argument was handled without error or panic. -/
def processRequests (args : List String) : List String :=
  match process args with
  | .listed f => [JOYENT_IMGAPI_URL ++ "?" ++ f.to_string]
  | _ => []

/-- Model of `fn main` of `src/bin/img.rs`: run on the outcome of `process()` (an
`Err` carries its rendered message), it prints `error: <msg>` to stderr on
failure and nothing otherwise; `main` returns `()` either way, so the
process exit status is `0` in both cases.  The result is the pair
(stderr lines, exit status). -/
def rustMain : Except String Unit → List String × Nat
  | .error e => (["error: " ++ e], 0)
  | .ok _ => ([], 0)

/-! ### `File` and its serde behaviour (`imgapi/src/lib.rs`)

`struct File` derives `Serialize`/`Deserialize`.  `stor` carries
`#[serde(skip)]`: it is never written out, and on input it is not read —
a `stor` member in the JSON is treated like any other unknown member and
ignored (serde does not use `deny_unknown_fields` here), the field being
filled from `Default` (`None`).  `uncompressed_digest` carries
`#[serde(rename = "uncompressedDigest")]`.  `Option` fields serialize as
`null` when `None` and deserialize as `None` when missing or `null`. -/

/-- JSON values (numbers restricted to the naturals the model needs). -/
inductive Json where
  | null
  | bool (b : Bool)
  | num (n : Nat)
  | str (s : String)
  | arr (elts : List Json)
  | obj (fields : List (String × Json))
  deriving Repr

/-- Rust `enum Compression`, serde `rename_all = "lowercase"`. -/
inductive Compression where
  | bzip2
  | gzip
  | none
  deriving DecidableEq, Repr

/-- The lowercase wire name of a compression kind. -/
def Compression.wire : Compression → String
  | .bzip2 => "bzip2"
  | .gzip => "gzip"
  | .none => "none"

/-- Rust `struct File`.  `dataset_guid` (a `Uuid`) is modelled by its textual
form. -/
structure File where
  sha1 : String
  size : Nat
  compression : Compression
  dataset_guid : Option String := none
  stor : Option String := none
  digest : Option String := none
  uncompressed_digest : Option String := none
  deriving Repr, DecidableEq

/-- Look a key up in a JSON object's member list (first match, as serde
sees members in order). -/
def jlookup (fields : List (String × Json)) (k : String) : Option Json :=
  (fields.find? fun p => p.1 == k).map fun p => p.2

/-- Serde serialization of a `File` as the member list of a JSON object:
declaration order, `stor` skipped, `uncompressed_digest` renamed, absent
options as `null`. -/
def fileJsonFields (f : File) : List (String × Json) :=
  [("sha1", .str f.sha1),
   ("size", .num f.size),
   ("compression", .str f.compression.wire),
   ("dataset_guid", match f.dataset_guid with
     | some g => .str g
     | none => .null),
   ("digest", match f.digest with
     | some d => .str d
     | none => .null),
   ("uncompressedDigest", match f.uncompressed_digest with
     | some d => .str d
     | none => .null)]

/-- Serde serialization of a `File` as a JSON value. -/
def fileToJson (f : File) : Json :=
  .obj (fileJsonFields f)

/-- Decode a required string member. -/
def asStr : Option Json → Option String
  | some (.str s) => some s
  | _ => none

/-- Decode a required `u64` member. -/
def asNat : Option Json → Option Nat
  | some (.num n) => some n
  | _ => none

/-- Deserialize a `Compression` from its lowercase wire name. -/
def compressionFromJson : Json → Option Compression
  | .str s =>
    if s = "bzip2" then some .bzip2
    else if s = "gzip" then some .gzip
    else if s = "none" then some .none
    else none
  | _ => none

/-- Decode an `Option<String>` member: missing or `null` is `None`, a
string is `Some`, anything else is a type error. -/
def optStrField (fields : List (String × Json)) (k : String) :
    Option (Option String) :=
  match jlookup fields k with
  | none => some none
  | some .null => some none
  | some (.str s) => some (some s)
  | some _ => none

/-- Decode an `Option<Uuid>` member: like `optStrField` but the string must
parse as a UUID. -/
def optUuidField (fields : List (String × Json)) (k : String) :
    Option (Option String) :=
  match jlookup fields k with
  | none => some none
  | some .null => some none
  | some (.str s) => if isValidUuid s then some (some s) else none
  | some _ => none

/-- Serde deserialization of a `File`: requires `sha1`, `size` and
`compression`; optional members may be missing or `null`; a `stor` member
(or any other unknown member) is ignored; the skipped `stor` field is
filled from `Default`, i.e. `None`. -/
def fileFromJson : Json → Option File
  | .obj fields => do
    let sha1 ← asStr (jlookup fields "sha1")
    let size ← asNat (jlookup fields "size")
    let comp ← match jlookup fields "compression" with
      | some c => compressionFromJson c
      | none => none
    let dg ← optUuidField fields "dataset_guid"
    let dig ← optStrField fields "digest"
    let ud ← optStrField fields "uncompressedDigest"
    some { sha1 := sha1, size := size, compression := comp,
           dataset_guid := dg, stor := none, digest := dig,
           uncompressed_digest := ud }
  | _ => none

/-! ### Helper lemmas -/

/-- Appending strings acts as list append on the underlying character
data. -/
theorem data_append (a b : String) : (a ++ b).data = a.data ++ b.data := rfl

/-- A key of the form `tag.` ++ k can never equal a string whose first
character is not `t`. -/
theorem tag_key_ne (k q : String) (h : q.data.head? ≠ some 't') :
    ("tag." ++ k) ≠ q := by
  intro he
  exact h (by rw [← he]; rfl)

/-- Whether a key has the shape of a tag-map key: its first four characters
are `tag.`. -/
def isTagKey (s : String) : Bool :=
  s.data.take 4 == ['t', 'a', 'g', '.']

/-- Every key produced by `tagPair` has the tag-key shape. -/
theorem isTagKey_tagPair (kv : String × String) :
    isTagKey (tagPair kv).1 = true := rfl

/-- Filtering an `optPair` by a key predicate the key fails yields
nothing. -/
theorem filter_optPair_neg (sel : String → Bool) (k : String)
    (v : Option String) (h : sel k = false) :
    (optPair k v).filter (fun p => sel p.1) = [] := by
  cases v <;> simp [optPair, h]

/-- Filtering the tag-map pairs by a predicate every `tag.`-shaped key
fails yields nothing. -/
theorem filter_tagPairs_neg (sel : String → Bool) (l : List (String × String))
    (h : ∀ kv : String × String, sel (tagPair kv).1 = false) :
    (l.map tagPair).filter (fun p => sel p.1) = [] := by
  induction l with
  | nil => rfl
  | cons kv rest ih => simp [List.filter_cons, h kv, ih]

/-- Filtering the tag-map pairs by a predicate every `tag.`-shaped key
satisfies keeps them all, in order. -/
theorem filter_tagPairs_pos (sel : String → Bool) (l : List (String × String))
    (h : ∀ kv : String × String, sel (tagPair kv).1 = true) :
    (l.map tagPair).filter (fun p => sel p.1) = l.map tagPair := by
  induction l with
  | nil => rfl
  | cons kv rest ih => simp [List.filter_cons, h kv, ih]

/-- Filtering the billing-tag pairs by a predicate that rejects the key
`billing_tag` yields nothing. -/
theorem filter_billingPairs_neg (sel : String → Bool) (l : List String)
    (h : sel "billing_tag" = false) :
    (l.map fun v => ("billing_tag", v)).filter (fun p => sel p.1) = [] := by
  induction l with
  | nil => rfl
  | cons v rest ih => simp [List.filter_cons, h, ih]

/-- Filtering the billing-tag pairs by a predicate that accepts the key
`billing_tag` keeps them all, in order. -/
theorem filter_billingPairs_pos (sel : String → Bool) (l : List String)
    (h : sel "billing_tag" = true) :
    (l.map fun v => ("billing_tag", v)).filter (fun p => sel p.1) =
      l.map fun v => ("billing_tag", v) := by
  induction l with
  | nil => rfl
  | cons v rest ih => simp [List.filter_cons, h, ih]

/-- Mapping over an option preserves presence. -/
theorem isSome_map {α β : Type} (g : α → β) (v : Option α) :
    (v.map g).isSome = v.isSome := by
  cases v <;> rfl

/-- For a key predicate that rejects all eleven scalar keys, filtering
`ImageFilter.pairs` reduces to filtering the tag and billing-tag
sections. -/
theorem pairs_filter_scalars_out (f : ImageFilter) (sel : String → Bool)
    (ha : sel "account" = false) (hc : sel "channel" = false)
    (hi : sel "include_admin_fields" = false) (how : sel "owner" = false)
    (hs : sel "state" = false) (hn : sel "name" = false)
    (hv : sel "version" = false) (hp : sel "public" = false)
    (hos : sel "os" = false) (hit : sel "image_type" = false)
    (hl : sel "limit" = false) :
    f.pairs.filter (fun p => sel p.1) =
      ((f.tag.getD []).map tagPair).filter (fun p => sel p.1) ++
        ((f.billing_tag.getD []).map fun v => ("billing_tag", v)).filter
          (fun p => sel p.1) := by
  simp only [ImageFilter.pairs, List.filter_append]
  rw [filter_optPair_neg sel "account" f.account ha,
    filter_optPair_neg sel "channel" f.channel hc,
    filter_optPair_neg sel "include_admin_fields"
      (f.include_admin_fields.map rustBoolString) hi,
    filter_optPair_neg sel "owner" f.owner how,
    filter_optPair_neg sel "state" (f.state.map ImageState.display) hs,
    filter_optPair_neg sel "name" f.name hn,
    filter_optPair_neg sel "version" f.version hv,
    filter_optPair_neg sel "public" (f.public.map rustBoolString) hp,
    filter_optPair_neg sel "os" (f.os.map OperatingSystem.as_param) hos,
    filter_optPair_neg sel "image_type" f.image_type hit,
    filter_optPair_neg sel "limit" (f.limit.map toString) hl]
  simp

/-- An `optPair` contributes one pair when the field is present, none
otherwise. -/
theorem optPair_length (k : String) (v : Option String) :
    (optPair k v).length = if v.isSome then 1 else 0 := by
  cases v <;> rfl

/-! ### The claims -/

/-- C1.  The claim says a Filter with the include-admin-fields flag set
emits a pair with key exactly `inclAdminFields`.  The code does not: the
`add_param!` macro's three-argument arm discards its explicit
`"inclAdminFields"` argument and re-derives the key as
`stringify!(include_admin_fields)`, so the emitted key is
`include_admin_fields` (the value is still the boolean textual form), and
no Filter ever emits a pair keyed `inclAdminFields`. -/
theorem c1_admin_fields_key :
    ImageFilter.to_string { include_admin_fields := some true } =
      "include_admin_fields=true" ∧
    ImageFilter.to_string { include_admin_fields := some false } =
      "include_admin_fields=false" ∧
    ∀ f : ImageFilter,
      f.pairs.filter (fun p => p.1 == "inclAdminFields") = [] := by
  refine ⟨rfl, rfl, fun f => ?_⟩
  rw [pairs_filter_scalars_out f (fun k => k == "inclAdminFields")
    (by decide) (by decide) (by decide) (by decide) (by decide) (by decide)
    (by decide) (by decide) (by decide) (by decide) (by decide),
    filter_tagPairs_neg (fun k => k == "inclAdminFields") (f.tag.getD [])
      (fun kv => beq_eq_false_iff_ne.mpr (tag_key_ne kv.1 _ (by decide))),
    filter_billingPairs_neg (fun k => k == "inclAdminFields")
      (f.billing_tag.getD []) (by decide)]
  rfl

/-- C5.  Each present scalar field of a Filter emits exactly one pair, the
tag and billing-tag collections emit one pair per entry, absent fields emit
nothing; the empty Filter encodes to the empty query string. -/
theorem c5_one_pair_per_field :
    (∀ f : ImageFilter,
      f.pairs.length =
        (if f.account.isSome then 1 else 0) +
        (if f.channel.isSome then 1 else 0) +
        (if f.include_admin_fields.isSome then 1 else 0) +
        (if f.owner.isSome then 1 else 0) +
        (if f.state.isSome then 1 else 0) +
        (if f.name.isSome then 1 else 0) +
        (if f.version.isSome then 1 else 0) +
        (if f.public.isSome then 1 else 0) +
        (if f.os.isSome then 1 else 0) +
        (if f.image_type.isSome then 1 else 0) +
        (if f.limit.isSome then 1 else 0) +
        (f.tag.getD []).length + (f.billing_tag.getD []).length) ∧
    ImageFilter.to_string {} = "" := by
  refine ⟨fun f => ?_, rfl⟩
  simp only [ImageFilter.pairs, List.length_append, optPair_length,
    List.length_map, isSome_map]

/-- C6.  The billing-tag list expands into one pair per element, all with
key `billing_tag`, emitted in list order; concretely, billing tags
`["a", "b"]` encode as `billing_tag=a&billing_tag=b`. -/
theorem c6_billing_tag_order (f : ImageFilter) (l : List String)
    (h : f.billing_tag = some l) :
    f.pairs.filter (fun p => p.1 == "billing_tag") =
      l.map (fun v => ("billing_tag", v)) ∧
    ImageFilter.to_string { billing_tag := some ["a", "b"] } =
      "billing_tag=a&billing_tag=b" := by
  refine ⟨?_, rfl⟩
  rw [pairs_filter_scalars_out f (fun k => k == "billing_tag")
    (by decide) (by decide) (by decide) (by decide) (by decide) (by decide)
    (by decide) (by decide) (by decide) (by decide) (by decide),
    filter_tagPairs_neg (fun k => k == "billing_tag") (f.tag.getD [])
      (fun kv => beq_eq_false_iff_ne.mpr (tag_key_ne kv.1 _ (by decide))),
    h, Option.getD_some,
    filter_billingPairs_pos (fun k => k == "billing_tag") l (by decide)]
  rfl

/-- C6 witness: the theorem at the Filter holding billing tags
`["a", "b"]`. -/
theorem c6_witness :
    (ImageFilter.pairs { billing_tag := some ["a", "b"] }).filter
        (fun p => p.1 == "billing_tag") =
      [("billing_tag", "a"), ("billing_tag", "b")] ∧
    ImageFilter.to_string { billing_tag := some ["a", "b"] } =
      "billing_tag=a&billing_tag=b" :=
  c6_billing_tag_order { billing_tag := some ["a", "b"] } ["a", "b"] rfl

/-- C7.  The tag mapping expands into one pair per entry, key `tag.`
followed by the entry's key and value verbatim, and nothing else in the
emitted pairs has a `tag.`-shaped key; for tags
`{"cloud": "private", "foo": "bar"}` (in that iteration order) the encoded
string is `tag.cloud=private&tag.foo=bar`, each pair occurring exactly
once. -/
theorem c7_tag_mapping_pairs (f : ImageFilter) (l : List (String × String))
    (h : f.tag = some l) :
    f.pairs.filter (fun p => isTagKey p.1) = l.map tagPair ∧
    ImageFilter.to_string { tag := some [("cloud", "private"), ("foo", "bar")] } =
      "tag.cloud=private&tag.foo=bar" ∧
    (ImageFilter.pairs { tag := some [("cloud", "private"), ("foo", "bar")] }).count
      ("tag.cloud", "private") = 1 ∧
    (ImageFilter.pairs { tag := some [("cloud", "private"), ("foo", "bar")] }).count
      ("tag.foo", "bar") = 1 := by
  refine ⟨?_, rfl, by decide, by decide⟩
  rw [pairs_filter_scalars_out f isTagKey
    (by decide) (by decide) (by decide) (by decide) (by decide) (by decide)
    (by decide) (by decide) (by decide) (by decide) (by decide),
    h, Option.getD_some,
    filter_tagPairs_pos isTagKey l (fun kv => isTagKey_tagPair kv),
    filter_billingPairs_neg isTagKey (f.billing_tag.getD []) (by decide)]
  simp

/-- C7 witness: the theorem at the Filter holding tags
`[("cloud", "private"), ("foo", "bar")]`. -/
theorem c7_witness :
    (ImageFilter.pairs { tag := some [("cloud", "private"), ("foo", "bar")] }).filter
        (fun p => isTagKey p.1) =
      [("tag.cloud", "private"), ("tag.foo", "bar")] ∧
    ImageFilter.to_string { tag := some [("cloud", "private"), ("foo", "bar")] } =
      "tag.cloud=private&tag.foo=bar" ∧
    (ImageFilter.pairs { tag := some [("cloud", "private"), ("foo", "bar")] }).count
      ("tag.cloud", "private") = 1 ∧
    (ImageFilter.pairs { tag := some [("cloud", "private"), ("foo", "bar")] }).count
      ("tag.foo", "bar") = 1 :=
  c7_tag_mapping_pairs { tag := some [("cloud", "private"), ("foo", "bar")] }
    [("cloud", "private"), ("foo", "bar")] rfl

/-- C8.  The operating-system field encodes via `as_param`, the short
lowercase wire form, for every variant; in particular `Linux` encodes as
`os=linux`, which differs from the display form `Linux`, and `SmartOS` as
`os=smartos`. -/
theorem c8_os_wire_form :
    (∀ o : OperatingSystem,
      ImageFilter.to_string { os := some o } = "os=" ++ o.as_param) ∧
    ImageFilter.to_string { os := some .Linux } = "os=linux" ∧
    "os=linux" ≠ "os=" ++ OperatingSystem.display .Linux ∧
    ImageFilter.to_string { os := some .SmartOS } = "os=smartos" :=
  ⟨fun o => by cases o <;> rfl, rfl, by decide, rfl⟩

/-- C2.  The claim says `get` issues its single GET to `<base>/<id>`.  It
does not: `Url::join` on the slash-less base path `/images` performs RFC
3986 resolution, which *replaces* the last path segment, so the one request
goes to `https://images.joyent.com/<id>` — the `images` segment is dropped
and the URL differs from `JOYENT_IMGAPI_URL ++ "/" ++ id`. -/
theorem c2_get_request_url :
    (∀ {A : Type} (fetch : String → Except String A),
      (get fetch "f669428c-a939-11e2-a485-b790efc0f0c1").2 =
        ["https://images.joyent.com/f669428c-a939-11e2-a485-b790efc0f0c1"]) ∧
    getUrl "f669428c-a939-11e2-a485-b790efc0f0c1" =
      "https://images.joyent.com/f669428c-a939-11e2-a485-b790efc0f0c1" ∧
    getUrl "f669428c-a939-11e2-a485-b790efc0f0c1" ≠
      JOYENT_IMGAPI_URL ++ "/f669428c-a939-11e2-a485-b790efc0f0c1" := by
  refine ⟨fun {A} fetch => ?_, rfl, by decide⟩
  unfold get
  rw [if_pos (show isValidUuid "f669428c-a939-11e2-a485-b790efc0f0c1" = true
    from by decide)]
  cases fetch (getUrl "f669428c-a939-11e2-a485-b790efc0f0c1") <;> rfl

/-- C4.  On any input `Uuid::parse_str` rejects, `get` fails with the
validation error and issues no request at all, whatever the transport would
have answered. -/
theorem c4_invalid_id_no_request {A : Type}
    (fetch : String → Except String A) (s : String)
    (h : isValidUuid s = false) :
    get fetch s = (Except.error GetError.invalidUuid, []) := by
  unfold get
  rw [if_neg (by simp [h])]

/-- C4 witness: `get` on `"not-a-uuid"` fails with the validation error and
requests nothing. -/
theorem c4_witness :
    isValidUuid "not-a-uuid" = false ∧
    get (fun _ => (Except.error "unreachable" : Except String Unit))
        "not-a-uuid" =
      (Except.error GetError.invalidUuid, []) :=
  ⟨by decide, c4_invalid_id_no_request _ _ (by decide)⟩

/-- C3 counterexample.  The claim says a failing `process()` makes the
entry point exit with a non-zero status; at the concrete failure
`account must be a valid UUID` the exit status component of `rustMain` is
`0`, because `main` only prints the error and returns `()` normally. -/
theorem c3_counterexample :
    (rustMain (Except.error "account must be a valid UUID")).2 = 0 := rfl

/-- C3, amended.  Whenever `process()` fails, `main` prints
`error: <message>` (and performs no recovery), but the process exits with
status `0`, not a non-zero status, because `main` returns `()`
normally. -/
theorem c3_main_prints_error_exits_zero (e : String) :
    rustMain (Except.error e) = (["error: " ++ e], 0) := rfl

/-- C10.  An argument `tag=<value>` or `marker=<value>` (any value, the
split being at the first `=`) drives `process`'s match into `todo!()` — an
unconditional panic, not a recoverable error — and a panicked run issues no
request. -/
theorem c10_tag_marker_panic :
    (∀ (f : ImageFilter) (v : String),
      processArg f ("tag=" ++ v) = .panics) ∧
    (∀ (f : ImageFilter) (v : String),
      processArg f ("marker=" ++ v) = .panics) ∧
    (∀ args : List String,
      process args = .panicked → processRequests args = []) := by
  refine ⟨fun f v => ?_, fun f v => ?_, fun args h => ?_⟩
  · have hsplit : splitOnceEq ("tag=" ++ v) = some ("tag", v) := by
      show (splitEq ('t' :: 'a' :: 'g' :: '=' :: v.data)).map _ = _
      have he : String.mk v.data = v := rfl
      simp [splitEq, he]
    simp [processArg, hsplit]
  · have hsplit : splitOnceEq ("marker=" ++ v) = some ("marker", v) := by
      show (splitEq
        ('m' :: 'a' :: 'r' :: 'k' :: 'e' :: 'r' :: '=' :: v.data)).map _ = _
      have he : String.mk v.data = v := rfl
      simp [splitEq, he]
    simp [processArg, hsplit]
  · simp [processRequests, h]

/-- C10 witness: the theorem at the concrete arguments `tag=1`,
`marker=1` and the argument vector `["img", "tag=1"]`. -/
theorem c10_witness :
    processArg {} ("tag=" ++ "1") = .panics ∧
    processArg {} ("marker=" ++ "1") = .panics ∧
    processRequests ["img", "tag=1"] = [] :=
  ⟨c10_tag_marker_panic.1 {} "1", c10_tag_marker_panic.2.1 {} "1",
    c10_tag_marker_panic.2.2 ["img", "tag=1"] rfl⟩

/-- Appending a `stor` member to a JSON object leaves every lookup for a
different key unchanged. -/
theorem jlookup_append_stor (fields : List (String × Json)) (v0 : Json)
    (k : String) (h : ("stor" == k) = false) :
    jlookup (fields ++ [("stor", v0)]) k = jlookup fields k := by
  have hne : "stor" ≠ k := beq_eq_false_iff_ne.mp h
  induction fields with
  | nil => simp [jlookup, List.find?_cons, h]
  | cons p rest ih =>
    simp only [jlookup, List.cons_append, List.find?_cons] at *
    cases hpk : (p.1 == k) <;> simp [hpk, ih, hne]

/-- Decoding via `optStrField` ignores an appended `stor` member. -/
theorem optStrField_append_stor (fields : List (String × Json)) (v0 : Json)
    (k : String) (h : ("stor" == k) = false) :
    optStrField (fields ++ [("stor", v0)]) k = optStrField fields k := by
  unfold optStrField
  rw [jlookup_append_stor fields v0 k h]

/-- Decoding via `optUuidField` ignores an appended `stor` member. -/
theorem optUuidField_append_stor (fields : List (String × Json)) (v0 : Json)
    (k : String) (h : ("stor" == k) = false) :
    optUuidField (fields ++ [("stor", v0)]) k = optUuidField fields k := by
  unfold optUuidField
  rw [jlookup_append_stor fields v0 k h]

/-- C9.  Serializing a `File` never emits a `stor` member; appending a
`stor` member to the JSON object of a file leaves deserialization entirely
unchanged (it is accepted and ignored, `stor` being `#[serde(skip)]`); and
a concrete file object carrying `stor` decodes successfully. -/
theorem c9_stor_accepted_never_emitted :
    (∀ f : File, jlookup (fileJsonFields f) "stor" = none) ∧
    (∀ (fields : List (String × Json)) (s : String),
      fileFromJson (.obj (fields ++ [("stor", Json.str s)])) =
        fileFromJson (.obj fields)) ∧
    fileFromJson (.obj [("sha1", .str "ab12"), ("size", .num 42),
        ("compression", .str "gzip"), ("stor", .str "local")]) =
      some { sha1 := "ab12", size := 42, compression := .gzip } := by
  refine ⟨fun f => rfl, fun fields s => ?_, rfl⟩
  simp only [fileFromJson]
  rw [jlookup_append_stor fields (Json.str s) "sha1" (by decide),
    jlookup_append_stor fields (Json.str s) "size" (by decide),
    jlookup_append_stor fields (Json.str s) "compression" (by decide),
    optUuidField_append_stor fields (Json.str s) "dataset_guid" (by decide),
    optStrField_append_stor fields (Json.str s) "digest" (by decide),
    optStrField_append_stor fields (Json.str s) "uncompressedDigest"
      (by decide)]

end Img
